import Mathlib

/-!
Verification of the fintools rate-and-compounding engine
(`src/fintools/compound_interest.py`) against its specification.

Each Python function is embedded as a Lean function over the reals.
Floating-point arithmetic is modelled by exact real arithmetic; Python's
`**` on positive bases is modelled by `Real.rpow` (or `Monoid.npow` where
the source exponent is the integer literal `12`).  A Python `ValueError`
raised by input validation is modelled by `Except.error` carrying the
source's message string; a normal return is `Except.ok`.

Source signatures declare `compounding_frequency : int`, so frequencies
are embedded as `ℤ`; `years : Union[int, float]`, principals and rates
are embedded as `ℝ`.
-/

open Real

/-- Embeds `annual_to_monthly_rate`: validates `annual_rate < 0`, then
returns `(1 + annual_rate) ** (1 / 12) - 1`. -/
noncomputable def annual_to_monthly_rate (annual_rate : ℝ) : Except String ℝ :=
  if annual_rate < 0 then Except.error "年利は0以上である必要があります"
  else Except.ok ((1 + annual_rate) ^ ((1 : ℝ) / 12) - 1)

/-- Embeds `monthly_to_annual_rate`: validates `monthly_rate < 0`, then
returns `(1 + monthly_rate) ** 12 - 1` (integer-literal exponent). -/
noncomputable def monthly_to_annual_rate (monthly_rate : ℝ) : Except String ℝ :=
  if monthly_rate < 0 then Except.error "月利は0以上である必要があります"
  else Except.ok ((1 + monthly_rate) ^ (12 : ℕ) - 1)

/-- Embeds `compound_interest`: four validation checks in source order, then
`principal * (1 + annual_rate / compounding_frequency) ** (compounding_frequency * years)`. -/
noncomputable def compound_interest (principal annual_rate years : ℝ)
    (compounding_frequency : ℤ) : Except String ℝ :=
  if principal < 0 then Except.error "元本は0以上である必要があります"
  else if annual_rate < 0 then Except.error "年利は0以上である必要があります"
  else if years < 0 then Except.error "期間は0以上である必要があります"
  else if compounding_frequency ≤ 0 then Except.error "複利回数は1以上である必要があります"
  else
    Except.ok (principal *
      (1 + annual_rate / (compounding_frequency : ℝ)) ^ ((compounding_frequency : ℝ) * years))

/-- Embeds `future_value`: a direct delegation to `compound_interest`. -/
noncomputable def future_value (principal annual_rate years : ℝ)
    (compounding_frequency : ℤ) : Except String ℝ :=
  compound_interest principal annual_rate years compounding_frequency

/-- Embeds `present_value`: four validation checks in source order, then
`future_value_amount / (1 + annual_rate / compounding_frequency) ** (compounding_frequency * years)`. -/
noncomputable def present_value (future_value_amount annual_rate years : ℝ)
    (compounding_frequency : ℤ) : Except String ℝ :=
  if future_value_amount < 0 then Except.error "将来価値は0以上である必要があります"
  else if annual_rate < 0 then Except.error "年利は0以上である必要があります"
  else if years < 0 then Except.error "期間は0以上である必要があります"
  else if compounding_frequency ≤ 0 then Except.error "複利回数は1以上である必要があります"
  else
    Except.ok (future_value_amount /
      (1 + annual_rate / (compounding_frequency : ℝ)) ^ ((compounding_frequency : ℝ) * years))

/-- Embeds `effective_annual_rate`: two validation checks, then
`(1 + nominal_annual_rate / compounding_frequency) ** compounding_frequency - 1`. -/
noncomputable def effective_annual_rate (nominal_annual_rate : ℝ)
    (compounding_frequency : ℤ) : Except String ℝ :=
  if nominal_annual_rate < 0 then Except.error "名目年利は0以上である必要があります"
  else if compounding_frequency ≤ 0 then Except.error "複利回数は1以上である必要があります"
  else
    Except.ok ((1 + nominal_annual_rate / (compounding_frequency : ℝ)) ^
      ((compounding_frequency : ℝ)) - 1)

/-- Embeds `continuous_compounding`: three validation checks, then
`principal * math.exp(annual_rate * years)`. -/
noncomputable def continuous_compounding (principal annual_rate years : ℝ) :
    Except String ℝ :=
  if principal < 0 then Except.error "元本は0以上である必要があります"
  else if annual_rate < 0 then Except.error "年利は0以上である必要があります"
  else if years < 0 then Except.error "期間は0以上である必要があります"
  else Except.ok (principal * Real.exp (annual_rate * years))

/-- C1: for every principal ≥ 0, annual_rate ≥ 0, years ≥ 0 and
compounding_frequency > 0, `compound_interest` returns
`principal * (1 + annual_rate/frequency) ^ (frequency * years)`; in
particular `compound_interest 1000 1 1 1` returns exactly `2000`. -/
theorem compound_interest_formula (p r t : ℝ) (n : ℤ) (hp : 0 ≤ p) (hr : 0 ≤ r)
    (ht : 0 ≤ t) (hn : 0 < n) :
    compound_interest p r t n =
      Except.ok (p * (1 + r / (n : ℝ)) ^ ((n : ℝ) * t)) ∧
    compound_interest 1000 1 1 1 = Except.ok 2000 := by
  constructor
  · unfold compound_interest
    rw [if_neg (not_lt.mpr hp), if_neg (not_lt.mpr hr), if_neg (not_lt.mpr ht),
      if_neg (not_le.mpr hn)]
  · unfold compound_interest
    rw [if_neg (by norm_num : ¬ (1000 : ℝ) < 0), if_neg (by norm_num : ¬ (1 : ℝ) < 0),
      if_neg (by norm_num : ¬ (1 : ℝ) < 0), if_neg (by norm_num : ¬ (1 : ℤ) ≤ 0)]
    have h1 : ((1 : ℤ) : ℝ) = 1 := by norm_num
    rw [h1]
    norm_num [Real.rpow_one]

/-- Witness for C1 at the concrete input (1000, 1, 1, 1). -/
theorem compound_interest_formula_witness :
    compound_interest 1000 1 1 1 = Except.ok 2000 :=
  (compound_interest_formula 1000 1 1 1 (by norm_num) (by norm_num) (by norm_num)
    (by norm_num)).2

/-- C4: zero rate yields the principal exactly, and zero years yields the
principal exactly, for any valid remaining inputs. -/
theorem compound_interest_zero_cases (p r t : ℝ) (n : ℤ) (hp : 0 ≤ p) (hr : 0 ≤ r)
    (ht : 0 ≤ t) (hn : 0 < n) :
    compound_interest p 0 t n = Except.ok p ∧ compound_interest p r 0 n = Except.ok p := by
  have hn' : ¬ n ≤ 0 := not_le.mpr hn
  constructor
  · unfold compound_interest
    rw [if_neg (not_lt.mpr hp), if_neg (by norm_num : ¬ (0 : ℝ) < 0),
      if_neg (not_lt.mpr ht), if_neg hn']
    rw [zero_div, add_zero, Real.one_rpow, mul_one]
  · unfold compound_interest
    rw [if_neg (not_lt.mpr hp), if_neg (not_lt.mpr hr),
      if_neg (by norm_num : ¬ (0 : ℝ) < 0), if_neg hn']
    rw [mul_zero, Real.rpow_zero, mul_one]

/-- Witness for C4 at the concrete input (3, 1, 2, 1). -/
theorem compound_interest_zero_cases_witness :
    compound_interest 3 0 2 1 = Except.ok 3 ∧ compound_interest 3 1 0 1 = Except.ok 3 :=
  compound_interest_zero_cases 3 1 2 1 (by norm_num) (by norm_num) (by norm_num)
    (by norm_num)

/-- C6: `annual_to_monthly_rate` returns `(1 + annual_rate) ^ (1/12) - 1`
for every nonnegative rate (the compounding-equivalent monthly rate, not
`annual_rate / 12`), and rejects negative rates with a nonempty
validation message. -/
theorem annual_to_monthly_rate_spec (r : ℝ) :
    (0 ≤ r → annual_to_monthly_rate r = Except.ok ((1 + r) ^ ((1 : ℝ) / 12) - 1)) ∧
    (r < 0 → ∃ m, annual_to_monthly_rate r = Except.error m ∧ m ≠ "") := by
  constructor
  · intro h
    unfold annual_to_monthly_rate
    rw [if_neg (not_lt.mpr h)]
  · intro h
    exact ⟨"年利は0以上である必要があります",
      by unfold annual_to_monthly_rate; rw [if_pos h], by decide⟩

/-- Witness for C6 at the concrete inputs 0 and -1. -/
theorem annual_to_monthly_rate_spec_witness :
    annual_to_monthly_rate 0 = Except.ok ((1 + 0) ^ ((1 : ℝ) / 12) - 1) ∧
    (∃ m, annual_to_monthly_rate (-1) = Except.error m ∧ m ≠ "") :=
  ⟨(annual_to_monthly_rate_spec 0).1 le_rfl,
   (annual_to_monthly_rate_spec (-1)).2 (by norm_num)⟩

/-- C7: `effective_annual_rate r 1` returns exactly `r` for every
nonnegative nominal rate `r`. -/
theorem effective_annual_rate_one (r : ℝ) (hr : 0 ≤ r) :
    effective_annual_rate r 1 = Except.ok r := by
  unfold effective_annual_rate
  rw [if_neg (not_lt.mpr hr), if_neg (by norm_num : ¬ (1 : ℤ) ≤ 0)]
  norm_num [Real.rpow_one]

/-- Witness for C7 at the concrete input r = 0. -/
theorem effective_annual_rate_one_witness : effective_annual_rate 0 1 = Except.ok 0 :=
  effective_annual_rate_one 0 le_rfl

/-- C9: `future_value` agrees with `compound_interest` on every input,
returning the identical `Except` value (same results, same failures). -/
theorem future_value_eq_compound_interest (p r t : ℝ) (n : ℤ) :
    future_value p r t n = compound_interest p r t n := rfl

/-- Strict weighted arithmetic-geometric mean bound for a two-point average
against 1, obtained from strict concavity of the logarithm: for `x > 0`,
`x ≠ 1` and a weight `0 < w < 1`, `x ^ w < w * x + (1 - w)`. -/
theorem rpow_lt_weighted_avg (x w : ℝ) (hx : 0 < x) (hx1 : x ≠ 1) (hw0 : 0 < w)
    (hw1 : w < 1) : x ^ w < w * x + (1 - w) := by
  have hmem : x ∈ Set.Ioi (0 : ℝ) := hx
  have h1 : (1 : ℝ) ∈ Set.Ioi (0 : ℝ) := Set.mem_Ioi.mpr one_pos
  have hconc := strictConcaveOn_log_Ioi.2 hmem h1 hx1 hw0
    (show (0 : ℝ) < 1 - w by linarith) (show w + (1 - w) = 1 by ring)
  rw [Real.log_one] at hconc
  simp only [smul_eq_mul, mul_zero, add_zero, mul_one] at hconc
  have hpos : 0 < w * x + (1 - w) := by
    have := mul_pos hw0 hx
    linarith
  rw [Real.rpow_def_of_pos hx w, mul_comm (Real.log x) w]
  calc Real.exp (w * Real.log x) < Real.exp (Real.log (w * x + (1 - w))) :=
        Real.exp_lt_exp.mpr hconc
    _ = w * x + (1 - w) := Real.exp_log hpos

/-- C10: for every strictly positive annual rate, the converted monthly rate
is strictly positive and strictly below the naive division `annual_rate / 12`. -/
theorem annual_to_monthly_rate_bounds (r : ℝ) (hr : 0 < r) :
    ∃ v, annual_to_monthly_rate r = Except.ok v ∧ 0 < v ∧ v < r / 12 := by
  refine ⟨(1 + r) ^ ((1 : ℝ) / 12) - 1, ?_, ?_, ?_⟩
  · unfold annual_to_monthly_rate
    rw [if_neg (not_lt.mpr (by linarith : (0 : ℝ) ≤ r))]
  · have h1 : 1 < (1 + r) ^ ((1 : ℝ) / 12) :=
      (Real.one_lt_rpow_iff_of_pos (by linarith)).mpr
        (Or.inl ⟨by linarith, by norm_num⟩)
    linarith
  · have h2 := rpow_lt_weighted_avg (1 + r) ((1 : ℝ) / 12) (by linarith)
      (ne_of_gt (by linarith : (1 : ℝ) < 1 + r)) (by norm_num) (by norm_num)
    linarith

/-- Witness for C10 at the concrete input r = 1. -/
theorem annual_to_monthly_rate_bounds_witness :
    ∃ v, annual_to_monthly_rate 1 = Except.ok v ∧ 0 < v ∧ v < 1 / 12 :=
  annual_to_monthly_rate_bounds 1 one_pos

/-- C2: for every valid quadruple, feeding the result of `compound_interest`
into `present_value` with the same rate, years and frequency recovers the
original principal within tolerance 1e-6 (here: exactly, so a fortiori
within tolerance). -/
theorem present_value_roundtrip (x r t : ℝ) (n : ℤ) (hx : 0 ≤ x) (hr : 0 ≤ r)
    (ht : 0 ≤ t) (hn : 0 < n) :
    ∃ fv, compound_interest x r t n = Except.ok fv ∧
      ∃ pv, present_value fv r t n = Except.ok pv ∧ |pv - x| ≤ 1e-6 := by
  have hnR : (0 : ℝ) < (n : ℝ) := by exact_mod_cast hn
  have hbase : (0 : ℝ) < 1 + r / (n : ℝ) := by
    have := div_nonneg hr hnR.le
    linarith
  have hB : 0 < (1 + r / (n : ℝ)) ^ ((n : ℝ) * t) := Real.rpow_pos_of_pos hbase _
  refine ⟨x * (1 + r / (n : ℝ)) ^ ((n : ℝ) * t), ?_, x, ?_, ?_⟩
  · unfold compound_interest
    rw [if_neg (not_lt.mpr hx), if_neg (not_lt.mpr hr), if_neg (not_lt.mpr ht),
      if_neg (not_le.mpr hn)]
  · unfold present_value
    rw [if_neg (not_lt.mpr (mul_nonneg hx hB.le)), if_neg (not_lt.mpr hr),
      if_neg (not_lt.mpr ht), if_neg (not_le.mpr hn),
      mul_div_cancel_right₀ x (ne_of_gt hB)]
  · norm_num

/-- Witness for C2 at the concrete input (1, 0, 0, 1). -/
theorem present_value_roundtrip_witness :
    ∃ fv, compound_interest 1 0 0 1 = Except.ok fv ∧
      ∃ pv, present_value fv 0 0 1 = Except.ok pv ∧ |pv - 1| ≤ 1e-6 :=
  present_value_roundtrip 1 0 0 1 (by norm_num) le_rfl le_rfl one_pos

/-- C5: converting an annual rate to a monthly rate and back recovers the
annual rate within 1e-10 (here exactly), and the composition in the other
order likewise recovers a nonnegative monthly rate exactly. -/
theorem rate_conversion_roundtrip (r m : ℝ) (hr : 0 ≤ r) (hm : 0 ≤ m) :
    (∃ mo, annual_to_monthly_rate r = Except.ok mo ∧
      ∃ a, monthly_to_annual_rate mo = Except.ok a ∧ |a - r| ≤ 1e-10) ∧
    (∃ a, monthly_to_annual_rate m = Except.ok a ∧
      ∃ mo, annual_to_monthly_rate a = Except.ok mo ∧ |mo - m| ≤ 1e-10) := by
  constructor
  · have h1 : (1 : ℝ) ≤ (1 + r) ^ ((1 : ℝ) / 12) := by
      calc (1 : ℝ) = 1 ^ ((1 : ℝ) / 12) := (Real.one_rpow _).symm
        _ ≤ (1 + r) ^ ((1 : ℝ) / 12) :=
            Real.rpow_le_rpow (by norm_num) (by linarith) (by norm_num)
    have key : ((1 + r) ^ ((1 : ℝ) / 12)) ^ (12 : ℕ) = 1 + r := by
      rw [← Real.rpow_natCast ((1 + r) ^ ((1 : ℝ) / 12)) 12,
        ← Real.rpow_mul (by linarith : (0 : ℝ) ≤ 1 + r)]
      norm_num
    refine ⟨(1 + r) ^ ((1 : ℝ) / 12) - 1, ?_, (1 + ((1 + r) ^ ((1 : ℝ) / 12) - 1)) ^ (12 : ℕ) - 1, ?_, ?_⟩
    · unfold annual_to_monthly_rate
      rw [if_neg (not_lt.mpr hr)]
    · unfold monthly_to_annual_rate
      rw [if_neg (not_lt.mpr (by linarith : (0 : ℝ) ≤ (1 + r) ^ ((1 : ℝ) / 12) - 1))]
    · have hsimp : (1 + ((1 + r) ^ ((1 : ℝ) / 12) - 1)) = (1 + r) ^ ((1 : ℝ) / 12) := by ring
      rw [hsimp, key]
      norm_num
  · have h2 : (1 : ℝ) ≤ (1 + m) ^ (12 : ℕ) := by
      calc (1 : ℝ) = 1 ^ (12 : ℕ) := (one_pow _).symm
        _ ≤ (1 + m) ^ (12 : ℕ) := pow_le_pow_left₀ (by norm_num) (by linarith) 12
    have key2 : ((1 + m) ^ (12 : ℕ)) ^ ((1 : ℝ) / 12) = 1 + m := by
      rw [← Real.rpow_natCast (1 + m) 12,
        ← Real.rpow_mul (by linarith : (0 : ℝ) ≤ 1 + m)]
      norm_num
    refine ⟨(1 + m) ^ (12 : ℕ) - 1, ?_, (1 + ((1 + m) ^ (12 : ℕ) - 1)) ^ ((1 : ℝ) / 12) - 1, ?_, ?_⟩
    · unfold monthly_to_annual_rate
      rw [if_neg (not_lt.mpr hm)]
    · unfold annual_to_monthly_rate
      rw [if_neg (not_lt.mpr (by linarith : (0 : ℝ) ≤ (1 + m) ^ (12 : ℕ) - 1))]
    · have hsimp2 : (1 + ((1 + m) ^ (12 : ℕ) - 1)) = (1 + m) ^ (12 : ℕ) := by ring
      rw [hsimp2, key2]
      norm_num

/-- Witness for C5 at the concrete inputs r = 0 and m = 0. -/
theorem rate_conversion_roundtrip_witness :
    (∃ mo, annual_to_monthly_rate 0 = Except.ok mo ∧
      ∃ a, monthly_to_annual_rate mo = Except.ok a ∧ |a - 0| ≤ 1e-10) ∧
    (∃ a, monthly_to_annual_rate 0 = Except.ok a ∧
      ∃ mo, annual_to_monthly_rate a = Except.ok mo ∧ |mo - 0| ≤ 1e-10) :=
  rate_conversion_roundtrip 0 0 le_rfl le_rfl

/-- C3: every operation fails — with a nonempty human-readable message —
exactly when one of its inputs violates its constraint (negative
principal/amount, negative rate, negative years, non-positive frequency),
and on every input satisfying the constraints it returns a value. -/
theorem validation_taxonomy :
    (∀ r : ℝ, ((∃ m, annual_to_monthly_rate r = Except.error m ∧ m ≠ "") ↔ r < 0) ∧
      (¬ r < 0 → ∃ v, annual_to_monthly_rate r = Except.ok v)) ∧
    (∀ r : ℝ, ((∃ m, monthly_to_annual_rate r = Except.error m ∧ m ≠ "") ↔ r < 0) ∧
      (¬ r < 0 → ∃ v, monthly_to_annual_rate r = Except.ok v)) ∧
    (∀ p r t : ℝ, ∀ n : ℤ,
      ((∃ m, compound_interest p r t n = Except.error m ∧ m ≠ "") ↔
        (p < 0 ∨ r < 0 ∨ t < 0 ∨ n ≤ 0)) ∧
      (¬ (p < 0 ∨ r < 0 ∨ t < 0 ∨ n ≤ 0) → ∃ v, compound_interest p r t n = Except.ok v)) ∧
    (∀ p r t : ℝ, ∀ n : ℤ,
      ((∃ m, future_value p r t n = Except.error m ∧ m ≠ "") ↔
        (p < 0 ∨ r < 0 ∨ t < 0 ∨ n ≤ 0)) ∧
      (¬ (p < 0 ∨ r < 0 ∨ t < 0 ∨ n ≤ 0) → ∃ v, future_value p r t n = Except.ok v)) ∧
    (∀ fv r t : ℝ, ∀ n : ℤ,
      ((∃ m, present_value fv r t n = Except.error m ∧ m ≠ "") ↔
        (fv < 0 ∨ r < 0 ∨ t < 0 ∨ n ≤ 0)) ∧
      (¬ (fv < 0 ∨ r < 0 ∨ t < 0 ∨ n ≤ 0) → ∃ v, present_value fv r t n = Except.ok v)) ∧
    (∀ r : ℝ, ∀ n : ℤ,
      ((∃ m, effective_annual_rate r n = Except.error m ∧ m ≠ "") ↔ (r < 0 ∨ n ≤ 0)) ∧
      (¬ (r < 0 ∨ n ≤ 0) → ∃ v, effective_annual_rate r n = Except.ok v)) ∧
    (∀ p r t : ℝ,
      ((∃ m, continuous_compounding p r t = Except.error m ∧ m ≠ "") ↔
        (p < 0 ∨ r < 0 ∨ t < 0)) ∧
      (¬ (p < 0 ∨ r < 0 ∨ t < 0) → ∃ v, continuous_compounding p r t = Except.ok v)) := by
  refine ⟨?_, ?_, ?_, ?_, ?_, ?_, ?_⟩
  · intro r
    unfold annual_to_monthly_rate
    refine ⟨⟨?_, ?_⟩, ?_⟩
    · rintro ⟨m, hm, -⟩
      by_contra hc
      rw [if_neg hc] at hm
      exact Except.noConfusion hm
    · intro hviol
      exact ⟨"年利は0以上である必要があります", by rw [if_pos hviol], by decide⟩
    · intro hc
      rw [if_neg hc]
      exact ⟨_, rfl⟩
  · intro r
    unfold monthly_to_annual_rate
    refine ⟨⟨?_, ?_⟩, ?_⟩
    · rintro ⟨m, hm, -⟩
      by_contra hc
      rw [if_neg hc] at hm
      exact Except.noConfusion hm
    · intro hviol
      exact ⟨"月利は0以上である必要があります", by rw [if_pos hviol], by decide⟩
    · intro hc
      rw [if_neg hc]
      exact ⟨_, rfl⟩
  · intro p r t n
    unfold compound_interest
    refine ⟨⟨?_, ?_⟩, ?_⟩
    · rintro ⟨m, hm, -⟩
      by_contra hc
      push_neg at hc
      obtain ⟨h1, h2, h3, h4⟩ := hc
      rw [if_neg (not_lt.mpr h1), if_neg (not_lt.mpr h2), if_neg (not_lt.mpr h3),
        if_neg (not_le.mpr h4)] at hm
      exact Except.noConfusion hm
    · intro hviol
      by_cases h1 : p < 0
      · exact ⟨"元本は0以上である必要があります", by rw [if_pos h1], by decide⟩
      · by_cases h2 : r < 0
        · exact ⟨"年利は0以上である必要があります",
            by rw [if_neg h1, if_pos h2], by decide⟩
        · by_cases h3 : t < 0
          · exact ⟨"期間は0以上である必要があります",
              by rw [if_neg h1, if_neg h2, if_pos h3], by decide⟩
          · by_cases h4 : n ≤ 0
            · exact ⟨"複利回数は1以上である必要があります",
                by rw [if_neg h1, if_neg h2, if_neg h3, if_pos h4], by decide⟩
            · exact absurd hviol (by tauto)
    · intro hc
      push_neg at hc
      obtain ⟨h1, h2, h3, h4⟩ := hc
      rw [if_neg (not_lt.mpr h1), if_neg (not_lt.mpr h2), if_neg (not_lt.mpr h3),
        if_neg (not_le.mpr h4)]
      exact ⟨_, rfl⟩
  · intro p r t n
    unfold future_value compound_interest
    refine ⟨⟨?_, ?_⟩, ?_⟩
    · rintro ⟨m, hm, -⟩
      by_contra hc
      push_neg at hc
      obtain ⟨h1, h2, h3, h4⟩ := hc
      rw [if_neg (not_lt.mpr h1), if_neg (not_lt.mpr h2), if_neg (not_lt.mpr h3),
        if_neg (not_le.mpr h4)] at hm
      exact Except.noConfusion hm
    · intro hviol
      by_cases h1 : p < 0
      · exact ⟨"元本は0以上である必要があります", by rw [if_pos h1], by decide⟩
      · by_cases h2 : r < 0
        · exact ⟨"年利は0以上である必要があります",
            by rw [if_neg h1, if_pos h2], by decide⟩
        · by_cases h3 : t < 0
          · exact ⟨"期間は0以上である必要があります",
              by rw [if_neg h1, if_neg h2, if_pos h3], by decide⟩
          · by_cases h4 : n ≤ 0
            · exact ⟨"複利回数は1以上である必要があります",
                by rw [if_neg h1, if_neg h2, if_neg h3, if_pos h4], by decide⟩
            · exact absurd hviol (by tauto)
    · intro hc
      push_neg at hc
      obtain ⟨h1, h2, h3, h4⟩ := hc
      rw [if_neg (not_lt.mpr h1), if_neg (not_lt.mpr h2), if_neg (not_lt.mpr h3),
        if_neg (not_le.mpr h4)]
      exact ⟨_, rfl⟩
  · intro fv r t n
    unfold present_value
    refine ⟨⟨?_, ?_⟩, ?_⟩
    · rintro ⟨m, hm, -⟩
      by_contra hc
      push_neg at hc
      obtain ⟨h1, h2, h3, h4⟩ := hc
      rw [if_neg (not_lt.mpr h1), if_neg (not_lt.mpr h2), if_neg (not_lt.mpr h3),
        if_neg (not_le.mpr h4)] at hm
      exact Except.noConfusion hm
    · intro hviol
      by_cases h1 : fv < 0
      · exact ⟨"将来価値は0以上である必要があります", by rw [if_pos h1], by decide⟩
      · by_cases h2 : r < 0
        · exact ⟨"年利は0以上である必要があります",
            by rw [if_neg h1, if_pos h2], by decide⟩
        · by_cases h3 : t < 0
          · exact ⟨"期間は0以上である必要があります",
              by rw [if_neg h1, if_neg h2, if_pos h3], by decide⟩
          · by_cases h4 : n ≤ 0
            · exact ⟨"複利回数は1以上である必要があります",
                by rw [if_neg h1, if_neg h2, if_neg h3, if_pos h4], by decide⟩
            · exact absurd hviol (by tauto)
    · intro hc
      push_neg at hc
      obtain ⟨h1, h2, h3, h4⟩ := hc
      rw [if_neg (not_lt.mpr h1), if_neg (not_lt.mpr h2), if_neg (not_lt.mpr h3),
        if_neg (not_le.mpr h4)]
      exact ⟨_, rfl⟩
  · intro r n
    unfold effective_annual_rate
    refine ⟨⟨?_, ?_⟩, ?_⟩
    · rintro ⟨m, hm, -⟩
      by_contra hc
      push_neg at hc
      obtain ⟨h1, h2⟩ := hc
      rw [if_neg (not_lt.mpr h1), if_neg (not_le.mpr h2)] at hm
      exact Except.noConfusion hm
    · intro hviol
      by_cases h1 : r < 0
      · exact ⟨"名目年利は0以上である必要があります", by rw [if_pos h1], by decide⟩
      · by_cases h2 : n ≤ 0
        · exact ⟨"複利回数は1以上である必要があります",
            by rw [if_neg h1, if_pos h2], by decide⟩
        · exact absurd hviol (by tauto)
    · intro hc
      push_neg at hc
      obtain ⟨h1, h2⟩ := hc
      rw [if_neg (not_lt.mpr h1), if_neg (not_le.mpr h2)]
      exact ⟨_, rfl⟩
  · intro p r t
    unfold continuous_compounding
    refine ⟨⟨?_, ?_⟩, ?_⟩
    · rintro ⟨m, hm, -⟩
      by_contra hc
      push_neg at hc
      obtain ⟨h1, h2, h3⟩ := hc
      rw [if_neg (not_lt.mpr h1), if_neg (not_lt.mpr h2), if_neg (not_lt.mpr h3)] at hm
      exact Except.noConfusion hm
    · intro hviol
      by_cases h1 : p < 0
      · exact ⟨"元本は0以上である必要があります", by rw [if_pos h1], by decide⟩
      · by_cases h2 : r < 0
        · exact ⟨"年利は0以上である必要があります",
            by rw [if_neg h1, if_pos h2], by decide⟩
        · by_cases h3 : t < 0
          · exact ⟨"期間は0以上である必要があります",
              by rw [if_neg h1, if_neg h2, if_pos h3], by decide⟩
          · exact absurd hviol (by tauto)
    · intro hc
      push_neg at hc
      obtain ⟨h1, h2, h3⟩ := hc
      rw [if_neg (not_lt.mpr h1), if_neg (not_lt.mpr h2), if_neg (not_lt.mpr h3)]
      exact ⟨_, rfl⟩

/-- Witness for C3: a violated constraint yields a nonempty error message,
and a satisfied constraint yields a value, at concrete inputs. -/
theorem validation_taxonomy_witness :
    (∃ m, compound_interest (-1) 0 0 1 = Except.error m ∧ m ≠ "") ∧
    (∃ v, compound_interest 5 0 0 1 = Except.ok v) :=
  ⟨(validation_taxonomy.2.2.1 (-1) 0 0 1).1.mpr (Or.inl (by norm_num)),
   (validation_taxonomy.2.2.1 5 0 0 1).2 (by push_neg; norm_num)⟩

/-- The compounding factor `(1 + r / M) ^ M` is strictly increasing in the
real frequency `M` for a fixed rate `r > 0`. -/
theorem compound_factor_strict_mono (r M N : ℝ) (hr : 0 < r) (hM : 0 < M)
    (hMN : M < N) : (1 + r / M) ^ M < (1 + r / N) ^ N := by
  have hN : (0 : ℝ) < N := lt_trans hM hMN
  have hdM : (0 : ℝ) < r / M := div_pos hr hM
  have hx : (0 : ℝ) < 1 + r / M := by linarith
  have hx1 : (1 : ℝ) + r / M ≠ 1 := ne_of_gt (by linarith)
  have hw0 : 0 < M / N := div_pos hM hN
  have hw1 : M / N < 1 := (div_lt_one hN).mpr hMN
  have key := rpow_lt_weighted_avg (1 + r / M) (M / N) hx hx1 hw0 hw1
  have hrhs : (M / N) * (1 + r / M) + (1 - M / N) = 1 + r / N := by
    field_simp
    ring
  rw [hrhs] at key
  have h2 := Real.rpow_lt_rpow (Real.rpow_pos_of_pos hx (M / N)).le key hN
  rwa [← Real.rpow_mul hx.le, div_mul_cancel₀ M (ne_of_gt hN)] at h2

/-- C8 (amended): for every fixed nominal rate r > 0, the effective annual
rate is strictly increasing in the compounding frequency; the 0.001
approximation of e^r - 1 at frequency 365 holds at the specification's
reference rate r = 0.05 (by the counterexample it fails at larger rates
such as r = 1). -/
theorem effective_annual_rate_mono_and_ref (r : ℝ) (hr : 0 < r) (m n : ℤ)
    (hm : 0 < m) (hmn : m < n) :
    (∃ u v, effective_annual_rate r m = Except.ok u ∧
      effective_annual_rate r n = Except.ok v ∧ u < v) ∧
    (∃ w, effective_annual_rate (5 / 100) 365 = Except.ok w ∧
      |w - (Real.exp (5 / 100) - 1)| ≤ 1 / 1000) := by
  constructor
  · have hn : (0 : ℤ) < n := lt_trans hm hmn
    have hmR : (0 : ℝ) < (m : ℝ) := by exact_mod_cast hm
    have hnR : (0 : ℝ) < (n : ℝ) := by exact_mod_cast hn
    have hmnR : (m : ℝ) < (n : ℝ) := by exact_mod_cast hmn
    refine ⟨(1 + r / (m : ℝ)) ^ ((m : ℝ)) - 1, (1 + r / (n : ℝ)) ^ ((n : ℝ)) - 1,
      ?_, ?_, ?_⟩
    · unfold effective_annual_rate
      rw [if_neg (not_lt.mpr hr.le), if_neg (not_le.mpr hm)]
    · unfold effective_annual_rate
      rw [if_neg (not_lt.mpr hr.le), if_neg (not_le.mpr hn)]
    · exact sub_lt_sub_right (compound_factor_strict_mono r (m : ℝ) (n : ℝ) hr hmR hmnR) 1
  · have e1 : effective_annual_rate (5 / 100) 365 =
        Except.ok ((7301 / 7300 : ℝ) ^ (365 : ℕ) - 1) := by
      unfold effective_annual_rate
      rw [if_neg (by norm_num : ¬ (5 / 100 : ℝ) < 0),
        if_neg (by norm_num : ¬ (365 : ℤ) ≤ 0)]
      have hb : (1 : ℝ) + (5 / 100) / ((365 : ℤ) : ℝ) = 7301 / 7300 := by norm_num
      have he : (((365 : ℤ) : ℝ)) = ((365 : ℕ) : ℝ) := by norm_num
      rw [hb, he, Real.rpow_natCast]
    refine ⟨_, e1, ?_⟩
    have hlow : (7301 / 7300 : ℝ) ^ (365 : ℕ) < Real.exp (5 / 100) := by
      have ha := Real.add_one_lt_exp (show (1 / 7300 : ℝ) ≠ 0 by norm_num)
      have hb : ((1 : ℝ) + 1 / 7300) ^ (365 : ℕ) < (Real.exp (1 / 7300)) ^ (365 : ℕ) :=
        pow_lt_pow_left₀ (by linarith) (by norm_num) (by norm_num)
      rw [← Real.exp_nat_mul] at hb
      have hc : ((365 : ℕ) : ℝ) * (1 / 7300) = 5 / 100 := by norm_num
      rw [hc] at hb
      have hd : ((1 : ℝ) + 1 / 7300) = 7301 / 7300 := by norm_num
      rwa [hd] at hb
    have hup : Real.exp (5 / 100) ≤ (100 / 99 : ℝ) ^ (5 : ℕ) := by
      have hinv : (99 / 100 : ℝ) ≤ (Real.exp (1 / 100))⁻¹ := by
        rw [← Real.exp_neg]
        linarith [Real.add_one_le_exp (-(1 / 100) : ℝ)]
      have hp := Real.exp_pos (1 / 100 : ℝ)
      have h3 := mul_le_mul_of_nonneg_left hinv hp.le
      rw [mul_inv_cancel₀ (ne_of_gt hp)] at h3
      have hexp100 : Real.exp (1 / 100) ≤ 100 / 99 := by linarith
      have h5 : Real.exp (5 / 100) = (Real.exp (1 / 100)) ^ (5 : ℕ) := by
        rw [← Real.exp_nat_mul]
        norm_num
      rw [h5]
      exact pow_le_pow_left₀ hp.le hexp100 5
    have hnum : (100 / 99 : ℝ) ^ (5 : ℕ) ≤ (7301 / 7300 : ℝ) ^ (365 : ℕ) + 1 / 1000 := by
      norm_num
    have habs : (7301 / 7300 : ℝ) ^ (365 : ℕ) - 1 - (Real.exp (5 / 100) - 1) =
        -(Real.exp (5 / 100) - (7301 / 7300 : ℝ) ^ (365 : ℕ)) := by ring
    rw [habs, abs_neg, abs_of_nonneg (by linarith)]
    linarith

/-- Witness for the amended C8 at r = 1 with frequencies 1 < 2. -/
theorem effective_annual_rate_mono_and_ref_witness :
    (∃ u v, effective_annual_rate 1 1 = Except.ok u ∧
      effective_annual_rate 1 2 = Except.ok v ∧ u < v) ∧
    (∃ w, effective_annual_rate (5 / 100) 365 = Except.ok w ∧
      |w - (Real.exp (5 / 100) - 1)| ≤ 1 / 1000) :=
  effective_annual_rate_mono_and_ref 1 one_pos 1 2 one_pos one_lt_two

/-- C8 as stated is false: at the positive rate r = 1 the effective annual
rate at frequency 365 differs from e^1 - 1 by more than 0.001. -/
theorem effective_annual_rate_tolerance_fails_at_one :
    effective_annual_rate 1 365 = Except.ok ((366 / 365 : ℝ) ^ (365 : ℕ) - 1) ∧
    1 / 1000 < |((366 / 365 : ℝ) ^ (365 : ℕ) - 1) - (Real.exp 1 - 1)| := by
  have e1 : effective_annual_rate 1 365 =
      Except.ok ((366 / 365 : ℝ) ^ (365 : ℕ) - 1) := by
    unfold effective_annual_rate
    rw [if_neg (by norm_num : ¬ (1 : ℝ) < 0), if_neg (by norm_num : ¬ (365 : ℤ) ≤ 0)]
    have hb : (1 : ℝ) + 1 / ((365 : ℤ) : ℝ) = 366 / 365 := by norm_num
    have he : (((365 : ℤ) : ℝ)) = ((365 : ℕ) : ℝ) := by norm_num
    rw [hb, he, Real.rpow_natCast]
  refine ⟨e1, ?_⟩
  have h2 : (366 / 365 : ℝ) ^ (365 : ℕ) < 2.7172818283 := by norm_num
  have h3 := Real.exp_one_gt_d9
  have habs : (366 / 365 : ℝ) ^ (365 : ℕ) - 1 - (Real.exp 1 - 1) =
      -(Real.exp 1 - (366 / 365 : ℝ) ^ (365 : ℕ)) := by ring
  rw [habs, abs_neg, abs_of_nonneg (by norm_num; linarith)]
  norm_num
  linarith
